import Mathlib

/-!
Verification of the hierarchical configuration loader in `src/config`.

The development shallowly embeds the configuration subsystem: raw
key/value trees, the source-precedence merge, the typed schema with its
validators (from `src/config/models`), the secret-redaction wrapper, the
source tracking of `src/config/helpers/base.py`, the memoized
`get_config` entry point of `src/config/__init__.py`, and the exporters
of `src/config/helpers/config_exporter.py`.

Parts of the running program that live in the pydantic / pydantic-settings
libraries rather than in this repository (the deep merge of source trees,
the `SecretStr` wrapper, the error-aggregating validation engine, the
`__`-delimited reconstruction of nested keys from flat sources) are
modelled from the specification; each such definition says so in its
doc comment.
-/

/-- Raw configuration values: an untyped scalar, list, or nested mapping
read from one source (spec section 3, RawValue / MergedTree).  Mappings
are association lists, mirroring Python dicts. -/
inductive CVal where
  | vstr  : String → CVal
  | vint  : Int → CVal
  | vbool : Bool → CVal
  | vnull : CVal
  | vlist : List CVal → CVal
  | vdict : List (String × CVal) → CVal

/-- First-match lookup of a key among the entries of a mapping
(Python `dict` access; dict keys are unique). -/
def lookupKey (es : List (String × CVal)) (k : String) : Option CVal :=
  match es with
  | [] => none
  | (k', v) :: rest => if k' = k then some v else lookupKey rest k

/-- Follow a segmented path (spec section 3, ConfigKey) through nested
mappings. -/
def lookupPath (t : CVal) (p : List String) : Option CVal :=
  match p with
  | [] => some t
  | k :: rest =>
    match t with
    | .vdict es =>
      match lookupKey es k with
      | some c => lookupPath c rest
      | none => none
    | _ => none

/-- A leaf value is anything that is not a mapping. -/
def isLeaf (t : CVal) : Bool :=
  match t with
  | .vdict _ => false
  | _ => true

/-- The tree supplies nothing at all along path `p`: walking `p`, some
segment is missing from the mapping before the path ends and before any
leaf is hit.  This is the sense in which a source does not interfere with
a key that a lower-priority source supplies. -/
def noEntry (t : CVal) (p : List String) : Bool :=
  match p with
  | [] => false
  | k :: rest =>
    match t with
    | .vdict es =>
      match lookupKey es k with
      | none => true
      | some c => noEntry c rest
    | _ => false

/-- Remove every entry with key `k` (Python dict deletion; dict keys are
unique, so at most one entry is removed in practice). -/
def eraseKey (es : List (String × CVal)) (k : String) : List (String × CVal) :=
  match es with
  | [] => []
  | (k', v) :: rest => if k' = k then eraseKey rest k else (k', v) :: eraseKey rest k

mutual
/-- Modelled from the spec: the recursive overlay of a higher-priority
source tree onto a lower-priority one (spec section 4.3; realized by
pydantic-settings' `deep_update`, which is library code, not under
`src/`).  At a pair of mappings the children merge key-wise; in every
other case the higher-priority value replaces the lower one.  The order
of the produced entries (higher tree's keys first) is immaterial: all
properties are stated through `lookupKey`/`lookupPath`. -/
def overlay : CVal → CVal → CVal
  | .vstr s, _ => .vstr s
  | .vint n, _ => .vint n
  | .vbool b, _ => .vbool b
  | .vnull, _ => .vnull
  | .vlist xs, _ => .vlist xs
  | .vdict hi, .vdict lo => .vdict (overlayDicts hi lo)
  | .vdict hi, .vstr _ => .vdict hi
  | .vdict hi, .vint _ => .vdict hi
  | .vdict hi, .vbool _ => .vdict hi
  | .vdict hi, .vnull => .vdict hi
  | .vdict hi, .vlist _ => .vdict hi
termination_by a _ => sizeOf a

/-- Key-wise merge of two mappings, higher-priority entries first; keys
present only in the lower mapping are kept. -/
def overlayDicts : List (String × CVal) → List (String × CVal) → List (String × CVal)
  | [], lo => lo
  | (k, v) :: rest, lo =>
    (k, match lookupKey lo k with
        | some w => overlay v w
        | none => v) :: overlayDicts rest (eraseKey lo k)
termination_by hi _ => sizeOf hi
end

/-- Modelled from the spec: fold the ordered list of source trees
(highest priority first, as returned by `settings_customise_sources`)
into one MergedTree, overlaying each tree onto the merge of the
lower-priority ones (spec section 4.3). -/
def mergeSources (ts : List CVal) : CVal :=
  ts.foldr (fun hi acc => overlay hi acc) (.vdict [])

/-- From `src/config/helpers/base.py` lines 181-219
(`BaseConfigModel.settings_customise_sources`): the sources in priority
order, highest first — secrets files, then environment variables, then
dotenv files, then init settings (the structured-file tree that
`get_config` passes as keyword arguments). -/
def settings_customise_sources (file_secret_settings env_settings dotenv_settings init_settings : CVal) :
    List CVal :=
  [file_secret_settings, env_settings, dotenv_settings, init_settings]

/-- The raw value the loaded configuration sees for path `p`: the merged
tree's value if present, otherwise the schema default `dflt`
(spec sections 4.3 and 4.4). -/
def loadedValue (secrets env dotenv init : CVal) (p : List String) (dflt : CVal) : CVal :=
  (lookupPath (mergeSources (settings_customise_sources secrets env dotenv init)) p).getD dflt

/-- Modelled from the spec: the redacting wrapper for sensitive fields
(spec section 4.5; realized by pydantic's `SecretStr`, which is library
code, not under `src/`).  Default string conversion and default
serialization go through `display`; the real value is reachable only
through `get_secret_value`. -/
structure SecretStr where
  secretValue : String
deriving Repr, DecidableEq

/-- The fixed ten-asterisk mask emitted by every default output path of a
secret field (spec section 4.5). -/
def secretMask : String := "**********"

/-- Modelled from the spec: default string conversion of a secret always
yields the fixed mask, regardless of the underlying value. -/
def SecretStr.display (_ : SecretStr) : String := secretMask

/-- The explicit accessor returning the real underlying value. -/
def SecretStr.get_secret_value (s : SecretStr) : String := s.secretValue

/-- From `src/config/models/db.py` lines 6-19 (`DBPerfConfig`). -/
structure DBPerfConfig where
  POOL_SIZE : Int
  WEB_CONCURRENCY : Int
deriving Repr, DecidableEq

/-- From `src/config/models/db.py` lines 22-53 (`DBConfig`). -/
structure DBConfig where
  DB_NAME : String
  SCHEMA_NAMES : String
  USERNAME : SecretStr
  PASSWORD : SecretStr
  HOST : String
  PORT : Int
  PERF : DBPerfConfig
deriving Repr, DecidableEq

/-- From `src/config/models/aws.py` lines 6-24 (`AWSConfig`): the three
authentication fields are optional with default `None`. -/
structure AWSConfig where
  AWS_PROFILE : Option String
  AWS_ACCESS_KEY_ID : Option SecretStr
  AWS_SECRET_ACCESS_KEY : Option SecretStr
  AWS_DEFAULT_REGION : String
deriving Repr, DecidableEq

/-- From `src/config/models/logging.py` lines 19-28 (`LoggingConfig`).
`LOG_LEVEL` is the string enum `LogLevel`. -/
structure LoggingConfig where
  LOG_LEVEL : String
  LOG_FORMAT : String
  LOG_DATE_FORMAT : String
deriving Repr, DecidableEq

/-- From `src/config/models/lookup_files.py` (`LookupDataConfig`).  The
`RequiredFile` path normalization and existence assertion are filesystem
I/O and are elided; the field carries the configured path. -/
structure LookupDataConfig where
  DATA_FILE_1 : String
deriving Repr, DecidableEq

/-- From `src/config/models/consolidated.py` lines 10-38 (`AppConfig`). -/
structure AppConfig where
  SERVICE_NAME : String
  DB : DBConfig
  AWS_CONFIG : AWSConfig
  LOOKUP_DATA : LookupDataConfig
  LOGGING : LoggingConfig
deriving Repr, DecidableEq

/-- Default `DBPerfConfig` (db.py lines 18-19). -/
def defaultDBPerfConfig : DBPerfConfig := ⟨20, 5⟩

/-- Default `DBConfig` (db.py lines 44-53), as produced by the
`default_factory` when no source supplies the section. -/
def defaultDBConfig : DBConfig :=
  ⟨"DBNAME", "SCHEMA", ⟨"DB_USERNAME"⟩, ⟨"DB_PASS"⟩, "127.0.0.1", 5432, defaultDBPerfConfig⟩

/-- Default `LoggingConfig` (logging.py lines 22-28). -/
def defaultLoggingConfig : LoggingConfig :=
  ⟨"INFO", "%(asctime)s - %(name)s - %(levelname)s - %(message)s", "%Y-%m-%d %H:%M:%S"⟩

/-- Default `LookupDataConfig` (lookup_files.py line 23). -/
def defaultLookupDataConfig : LookupDataConfig := ⟨"pyproject.toml"⟩

/-- One entry of an aggregated validation error: the location of the
violated field and a message (spec section 4.4). -/
structure VErr where
  loc : List String
  msg : String
deriving Repr, DecidableEq

/-- The error list carried by a failing result. -/
def errListOf {α : Type} (r : Except (List VErr) α) : List VErr :=
  match r with
  | .ok _ => []
  | .error es => es

/-- Prefix every error location with the enclosing field name, the way
nested-model errors surface at the parent (spec section 4.4). -/
def prefixErrs {α : Type} (k : String) (r : Except (List VErr) α) : Except (List VErr) α :=
  match r with
  | .ok a => .ok a
  | .error es => .error (es.map (fun e => ⟨k :: e.loc, e.msg⟩))

/-- Accumulating decimal parse of a digit sequence; fails on any
non-digit. -/
def parseNatAux (cs : List Char) (acc : Nat) : Option Nat :=
  match cs with
  | [] => some acc
  | c :: rest => if c.isDigit then parseNatAux rest (acc * 10 + (c.toNat - 48)) else none

/-- Parse a decimal integer string with optional sign, the shape of
integer text pydantic's lax mode accepts from string sources. -/
def pyToInt (s : String) : Option Int :=
  match s.toList with
  | [] => none
  | '-' :: rest =>
    match rest with
    | [] => none
    | _ => (parseNatAux rest 0).map (fun n => -(n : Int))
  | '+' :: rest =>
    match rest with
    | [] => none
    | _ => (parseNatAux rest 0).map (fun n => (n : Int))
  | cs => (parseNatAux cs 0).map (fun n => (n : Int))

/-- Modelled from the spec: coercion of a raw value to a declared `int`
field (spec section 4.4; the coercion engine is pydantic-core, not under
`src/`).  An absent value resolves to the schema default; a decimal
string parses to the integer; a bool coerces to 0/1; anything else is a
per-field error. -/
def coerceInt (field : String) (v : Option CVal) (dflt : Int) : Except (List VErr) Int :=
  match v with
  | none => .ok dflt
  | some (.vint n) => .ok n
  | some (.vstr s) =>
    match pyToInt s with
    | some n => .ok n
    | none => .error [⟨[field], "Input should be a valid integer"⟩]
  | some (.vbool b) => .ok (if b then 1 else 0)
  | some _ => .error [⟨[field], "Input should be a valid integer"⟩]

/-- Modelled from the spec: coercion of a raw value to a declared `str`
field; absent resolves to the default. -/
def coerceStr (field : String) (v : Option CVal) (dflt : String) : Except (List VErr) String :=
  match v with
  | none => .ok dflt
  | some (.vstr s) => .ok s
  | some _ => .error [⟨[field], "Input should be a valid string"⟩]

/-- Modelled from the spec: coercion to a `SecretStr` field; a supplied
string is wrapped into the redacting container. -/
def coerceSecret (field : String) (v : Option CVal) (dflt : SecretStr) : Except (List VErr) SecretStr :=
  match v with
  | none => .ok dflt
  | some (.vstr s) => .ok ⟨s⟩
  | some _ => .error [⟨[field], "Input should be a valid string"⟩]

/-- Modelled from the spec: coercion to an `Optional[str]` field with
default `None`; an explicit null also yields `None`. -/
def coerceOptStr (field : String) (v : Option CVal) : Except (List VErr) (Option String) :=
  match v with
  | none => .ok none
  | some .vnull => .ok none
  | some (.vstr s) => .ok (some s)
  | some _ => .error [⟨[field], "Input should be a valid string"⟩]

/-- Modelled from the spec: coercion to an `Optional[SecretStr]` field
with default `None`. -/
def coerceOptSecret (field : String) (v : Option CVal) : Except (List VErr) (Option SecretStr) :=
  match v with
  | none => .ok none
  | some .vnull => .ok none
  | some (.vstr s) => .ok (some ⟨s⟩)
  | some _ => .error [⟨[field], "Input should be a valid string"⟩]

/-- The declared field names of `DBPerfConfig` (db.py lines 18-19). -/
def dbPerfFieldNames : List String := ["POOL_SIZE", "WEB_CONCURRENCY"]

/-- The declared field names of `DBConfig` (db.py lines 44-53). -/
def dbConfigFieldNames : List String :=
  ["DB_NAME", "SCHEMA_NAMES", "USERNAME", "PASSWORD", "HOST", "PORT", "PERF"]

/-- The declared top-level field names of `AppConfig`
(consolidated.py lines 34-38). -/
def appConfigFieldNames : List String :=
  ["SERVICE_NAME", "DB", "AWS_CONFIG", "LOOKUP_DATA", "LOGGING"]

/-- The valid `LogLevel` enum members (logging.py lines 9-16). -/
def logLevelNames : List String := ["CRITICAL", "ERROR", "WARNING", "INFO", "DEBUG"]

/-- First alias that hits, mirroring pydantic's `AliasChoices` used in
aws.py: each AWS field accepts `AWS__<NAME>` and then `<NAME>`. -/
def lookupAlias (es : List (String × CVal)) (a b : String) : Option CVal :=
  match lookupKey es a with
  | some v => some v
  | none => lookupKey es b

/-- Error-accumulating combination of two validation results: both
succeed, or the error lists concatenate (spec section 4.4: every
violation is collected, not just the first). -/
def collect2 {α β : Type} (ra : Except (List VErr) α) (rb : Except (List VErr) β) :
    Except (List VErr) (α × β) :=
  match ra, rb with
  | .ok a, .ok b => .ok (a, b)
  | ra, rb => .error (errListOf ra ++ errListOf rb)

/-- Validate the `DBPerfConfig` section.  An absent section resolves to
the `default_factory` result; unknown keys inside the section are ignored
(plain pydantic `BaseModel`, whose documented default is
`extra="ignore"`). -/
def validateDBPerfConfig (v : Option CVal) : Except (List VErr) DBPerfConfig :=
  match v with
  | none => .ok defaultDBPerfConfig
  | some (.vdict es) =>
    (collect2 (coerceInt "POOL_SIZE" (lookupKey es "POOL_SIZE") 20)
        (coerceInt "WEB_CONCURRENCY" (lookupKey es "WEB_CONCURRENCY") 5)).map
      (fun x => ⟨x.1, x.2⟩)
  | some _ => .error [⟨[], "Input should be an object"⟩]

/-- Validate the `DBConfig` section (db.py lines 22-53): per-field
coercion with schema defaults, errors aggregated across fields; unknown
keys ignored (plain `BaseModel`). -/
def validateDBConfig (v : Option CVal) : Except (List VErr) DBConfig :=
  match v with
  | none => .ok defaultDBConfig
  | some (.vdict es) =>
    (collect2 (collect2 (collect2 (collect2 (collect2 (collect2
        (coerceStr "DB_NAME" (lookupKey es "DB_NAME") "DBNAME")
        (coerceStr "SCHEMA_NAMES" (lookupKey es "SCHEMA_NAMES") "SCHEMA"))
        (coerceSecret "USERNAME" (lookupKey es "USERNAME") ⟨"DB_USERNAME"⟩))
        (coerceSecret "PASSWORD" (lookupKey es "PASSWORD") ⟨"DB_PASS"⟩))
        (coerceStr "HOST" (lookupKey es "HOST") "127.0.0.1"))
        (coerceInt "PORT" (lookupKey es "PORT") 5432))
        (prefixErrs "PERF" (validateDBPerfConfig (lookupKey es "PERF")))).map
      (fun x =>
        ⟨x.1.1.1.1.1.1, x.1.1.1.1.1.2, x.1.1.1.1.2, x.1.1.1.2, x.1.1.2, x.1.2, x.2⟩)
  | some _ => .error [⟨[], "Input should be an object"⟩]

/-- The message raised by `AWSConfig.validate_auth_config`
(aws.py line 33). -/
def awsAuthMsg : String :=
  "Either AWS_PROFILE or both AWS_ACCESS_KEY_ID and AWS_SECRET_ACCESS_KEY must be provided"

/-- Validate the `AWSConfig` section (aws.py lines 6-35): optional
fields with alias lookup, then the cross-field `model_validator`
`validate_auth_config` (lines 26-35), which runs only once the fields
themselves validated, exactly as a pydantic after-validator does.  An
absent section runs the `default_factory`, i.e. validates the empty
mapping. -/
def validateAWSConfig (v : Option CVal) : Except (List VErr) AWSConfig :=
  let es? := match v with
    | none => some []
    | some (.vdict es) => some es
    | some _ => none
  match es? with
  | none => .error [⟨[], "Input should be an object"⟩]
  | some es =>
    match collect2 (collect2 (collect2
        (coerceOptStr "AWS_PROFILE" (lookupAlias es "AWS__AWS_PROFILE" "AWS_PROFILE"))
        (coerceOptSecret "AWS_ACCESS_KEY_ID"
          (lookupAlias es "AWS__AWS_ACCESS_KEY_ID" "AWS_ACCESS_KEY_ID")))
        (coerceOptSecret "AWS_SECRET_ACCESS_KEY"
          (lookupAlias es "AWS__AWS_SECRET_ACCESS_KEY" "AWS_SECRET_ACCESS_KEY")))
        (coerceStr "AWS_DEFAULT_REGION" (lookupKey es "AWS_DEFAULT_REGION") "us-east-1") with
    | .error e => .error e
    | .ok x =>
      let has_profile := x.1.1.1.isSome
      let has_access_keys := x.1.1.2.isSome && x.1.2.isSome
      if !has_profile && !has_access_keys then
        .error [⟨[], awsAuthMsg⟩]
      else
        .ok ⟨x.1.1.1, x.1.1.2, x.1.2, x.2⟩

/-- Validate the `LoggingConfig` section (logging.py lines 19-28):
`LOG_LEVEL` must be a `LogLevel` member, `LOG_FORMAT` has
`min_length=1`.  The `validate_format_string` safety check delegates to
Python's own %-formatting engine and is modelled as accepting. -/
def validateLoggingConfig (v : Option CVal) : Except (List VErr) LoggingConfig :=
  match v with
  | none => .ok defaultLoggingConfig
  | some (.vdict es) =>
    let rLvl : Except (List VErr) String :=
      match lookupKey es "LOG_LEVEL" with
      | none => Except.ok "INFO"
      | some (.vstr s) =>
        if s ∈ logLevelNames then .ok s
        else .error [⟨["LOG_LEVEL"], "Input should be a valid LogLevel"⟩]
      | some _ => Except.error [⟨["LOG_LEVEL"], "Input should be a valid LogLevel"⟩]
    let rFmt : Except (List VErr) String :=
      match coerceStr "LOG_FORMAT" (lookupKey es "LOG_FORMAT")
        "%(asctime)s - %(name)s - %(levelname)s - %(message)s" with
      | .ok s =>
        if s.length ≥ 1 then Except.ok s
        else .error [⟨["LOG_FORMAT"], "String should have at least 1 character"⟩]
      | .error e => Except.error e
    let rDate := coerceStr "LOG_DATE_FORMAT" (lookupKey es "LOG_DATE_FORMAT") "%Y-%m-%d %H:%M:%S"
    (collect2 (collect2 rLvl rFmt) rDate).map (fun x => ⟨x.1.1, x.1.2, x.2⟩)
  | some _ => .error [⟨[], "Input should be an object"⟩]

/-- Validate the `LookupDataConfig` section (lookup_files.py): the path
field with its default; the file-existence assertion is filesystem I/O
and is elided. -/
def validateLookupDataConfig (v : Option CVal) : Except (List VErr) LookupDataConfig :=
  match v with
  | none => .ok defaultLookupDataConfig
  | some (.vdict es) =>
    (coerceStr "DATA_FILE_1" (lookupKey es "DATA_FILE_1") "pyproject.toml").map (fun s => ⟨s⟩)
  | some _ => .error [⟨[], "Input should be an object"⟩]

/-- The `extra="forbid"` check of the top-level settings model: one error
per key of the merged tree that is not a declared `AppConfig` field
(`DEFAULT_CONFIG_SETTINGS` in base.py lines 84-92). -/
def extraKeyErrs (es : List (String × CVal)) : List VErr :=
  (es.filter (fun e => !(appConfigFieldNames.contains e.1))).map
    (fun e => ⟨[e.1], "Extra inputs are not permitted"⟩)

/-- Validate the merged tree against `AppConfig`
(consolidated.py lines 10-38): per-section validation with schema
defaults, the top-level `extra="forbid"` check, and aggregation of every
violation into one error result (spec section 4.4).  The aggregating
engine itself is pydantic-core, not under `src/`, and is modelled from
the spec. -/
def validateAppConfig (v : CVal) : Except (List VErr) AppConfig :=
  match v with
  | .vdict es =>
    match collect2 (collect2 (collect2 (collect2
        (coerceStr "SERVICE_NAME" (lookupKey es "SERVICE_NAME") "my_service_name")
        (prefixErrs "DB" (validateDBConfig (lookupKey es "DB"))))
        (prefixErrs "AWS_CONFIG" (validateAWSConfig (lookupKey es "AWS_CONFIG"))))
        (prefixErrs "LOOKUP_DATA" (validateLookupDataConfig (lookupKey es "LOOKUP_DATA"))))
        (prefixErrs "LOGGING" (validateLoggingConfig (lookupKey es "LOGGING"))), extraKeyErrs es with
    | .ok x, [] => .ok ⟨x.1.1.1.1, x.1.1.1.2, x.1.1.2, x.1.2, x.2⟩
    | r, ex => .error (errListOf r ++ ex)
  | _ => .error [⟨[], "Input should be an object"⟩]

/-- One tracked configuration source, from the `ConfigSource` dataclass
in `src/config/helpers/base.py` lines 16-23. -/
structure ConfigSource where
  source_type : String
  path : String
  available : Bool
  description : String
deriving Repr, DecidableEq

/-- The observable state of the process environment at load time: the
filesystem facts the loader probes and the raw trees each reader
produces.  Source-reader internals (file parsing, environment
enumeration) are external collaborators, so their outputs are taken as
given trees. -/
structure World where
  basedir : String
  yamlExists : Bool
  yamlIsFile : Bool
  yamlParse : Except Unit CVal
  secretsDirExists : Bool
  envFileExists : Bool
  secretsTree : CVal
  envTree : CVal
  dotenvTree : CVal

/-- From `src/config/__init__.py` lines 15-34 (`load_config_yaml`):
track the YAML source record, return `None` when the file is missing,
and swallow any parse exception into `None`. -/
def load_config_yaml (w : World) : Option CVal × List ConfigSource :=
  let pathConfig := w.basedir ++ "/config.yaml"
  let srcRec : ConfigSource :=
    ⟨"yaml", pathConfig, w.yamlExists && w.yamlIsFile,
      "YAML configuration file: config.yaml"⟩
  if w.yamlExists then
    match w.yamlParse with
    | .ok d => (some d, [srcRec])
    | .error _ => (none, [srcRec])
  else
    (none, [srcRec])

/-- From `src/config/helpers/base.py` lines 144-179
(`BaseConfigModel._track_all_sources`): the records appended by the
model's `__init__`, in source order — secrets directory, environment
(always available), dotenv file. -/
def track_all_sources (w : World) : List ConfigSource :=
  [⟨"secrets", "/run/secrets", w.secretsDirExists,
      "Docker secrets directory: /run/secrets"⟩,
   ⟨"environment", "system environment", true,
      "System environment variables"⟩,
   ⟨"dotenv", w.basedir ++ "/.env", w.envFileExists,
      "Dotenv file: " ++ w.basedir ++ "/.env"⟩]

/-- One uncached pass of `get_config`
(`src/config/__init__.py` lines 37-56): clear the source list, load the
YAML tree (tracking the YAML source first), fall back to an empty
mapping, construct `AppConfig` (which tracks secrets, environment and
dotenv and merges the sources), and return the result together with the
tracked records. -/
def getConfigFresh (w : World) : Except (List VErr) AppConfig × List ConfigSource :=
  let (yamlOpt, log1) := load_config_yaml w
  let yamlTree := yamlOpt.getD (.vdict [])
  let log2 := log1 ++ track_all_sources w
  (validateAppConfig
      (mergeSources (settings_customise_sources w.secretsTree w.envTree w.dotenvTree yamlTree)),
    log2)

/-- The process-wide memoization state of `functools.lru_cache` on
`get_config`: the cached instance, if any, plus how many times the body
has been executed (object construction count — two results with the same
`builds` provenance are the identical instance). -/
structure CacheState where
  cached : Option AppConfig
  builds : Nat
deriving Repr, DecidableEq

/-- From `src/config/__init__.py` lines 37-56: `get_config` under its
`functools.lru_cache(maxsize=None)` decorator.  A cache hit returns the
stored instance without executing the body; a miss executes the body
once and, on success, stores the instance.  A raising body caches
nothing, as `lru_cache` does. -/
def get_config (w : World) (st : CacheState) : Except (List VErr) AppConfig × CacheState :=
  match st.cached with
  | some c => (.ok c, st)
  | none =>
    match (getConfigFresh w).1 with
    | .ok c => (.ok c, ⟨some c, st.builds + 1⟩)
    | .error e => (.error e, ⟨none, st.builds + 1⟩)

/-- Insert a value at a segmented path into a tree, creating nested
mappings along the way (helper for reconstructing nesting from flat
source keys). -/
def insertPath (p : List String) (v : CVal) (t : CVal) : CVal :=
  match p with
  | [] => v
  | k :: rest =>
    let es := match t with
      | .vdict es => es
      | _ => []
    let sub := (lookupKey es k).getD (.vdict [])
    .vdict (eraseKey es k ++ [(k, insertPath rest v sub)])

/-- Split a character sequence at each occurrence of the two-character
`__` delimiter (leftmost-first, exactly as Python `str.split("__")`);
`acc` holds the reversed characters of the current segment. -/
def splitDunder (cs : List Char) (acc : List Char) : List String :=
  match cs with
  | [] => [String.mk acc.reverse]
  | '_' :: '_' :: rest => String.mk acc.reverse :: splitDunder rest []
  | c :: rest => splitDunder rest (c :: acc)

/-- Split a flat source key on the fixed `__` delimiter into its path
segments. -/
def splitKeyDunder (s : String) : List String := splitDunder s.toList []

/-- Modelled from the spec: a flat source (environment, dotenv, secrets
files) reconstructs nesting by splitting each key on the fixed `__`
delimiter (`env_nested_delimiter` in `DEFAULT_CONFIG_SETTINGS`,
base.py lines 84-92; the splitting itself is pydantic-settings code, not
under `src/`). -/
def unflattenFlat (pairs : List (String × String)) : CVal :=
  pairs.foldl (fun acc kv => insertPath (splitKeyDunder kv.1) (.vstr kv.2) acc) (.vdict [])

/-- Serialization of one value in `model_dump(mode="json")`: how Python
renders the scalar into the dumped dict. -/
def serializeOptStr (v : Option String) : CVal :=
  match v with
  | none => .vnull
  | some s => .vstr s

/-- Modelled from the spec: default serialization of a secret emits the
mask, never the underlying value (spec section 4.5). -/
def serializeSecret (s : SecretStr) : CVal := .vstr s.display

/-- Modelled from the spec: default serialization of an optional secret:
null when unset, the mask when set. -/
def serializeOptSecret (v : Option SecretStr) : CVal :=
  match v with
  | none => .vnull
  | some s => .vstr s.display

/-- The entries of `config.model_dump(mode="json")` for the `AppConfig`
schema of `src/config/models`: the fixed nesting of the declared fields,
secret fields serialized through the redaction layer. -/
def dumpAppConfigEntries (c : AppConfig) : List (String × CVal) :=
  [("SERVICE_NAME", .vstr c.SERVICE_NAME),
   ("DB", .vdict
     [("DB_NAME", .vstr c.DB.DB_NAME),
      ("SCHEMA_NAMES", .vstr c.DB.SCHEMA_NAMES),
      ("USERNAME", serializeSecret c.DB.USERNAME),
      ("PASSWORD", serializeSecret c.DB.PASSWORD),
      ("HOST", .vstr c.DB.HOST),
      ("PORT", .vint c.DB.PORT),
      ("PERF", .vdict
        [("POOL_SIZE", .vint c.DB.PERF.POOL_SIZE),
         ("WEB_CONCURRENCY", .vint c.DB.PERF.WEB_CONCURRENCY)])]),
   ("AWS_CONFIG", .vdict
     [("AWS_PROFILE", serializeOptStr c.AWS_CONFIG.AWS_PROFILE),
      ("AWS_ACCESS_KEY_ID", serializeOptSecret c.AWS_CONFIG.AWS_ACCESS_KEY_ID),
      ("AWS_SECRET_ACCESS_KEY", serializeOptSecret c.AWS_CONFIG.AWS_SECRET_ACCESS_KEY),
      ("AWS_DEFAULT_REGION", .vstr c.AWS_CONFIG.AWS_DEFAULT_REGION)]),
   ("LOOKUP_DATA", .vdict [("DATA_FILE_1", .vstr c.LOOKUP_DATA.DATA_FILE_1)]),
   ("LOGGING", .vdict
     [("LOG_LEVEL", .vstr c.LOGGING.LOG_LEVEL),
      ("LOG_FORMAT", .vstr c.LOGGING.LOG_FORMAT),
      ("LOG_DATE_FORMAT", .vstr c.LOGGING.LOG_DATE_FORMAT)])]

/-- `config.model_dump(mode="json")` as a tree. -/
def dumpAppConfigJson (c : AppConfig) : CVal := .vdict (dumpAppConfigEntries c)

/-- From `src/config/helpers/config_exporter.py` lines 12-34
(`dump_config_to_yaml`): the YAML file written is exactly the
`model_dump(mode="json")` tree — no flattening, lists stay lists. -/
def dump_config_to_yaml (c : AppConfig) : CVal := dumpAppConfigJson c

/-- Whether one character sequence is a prefix of another. -/
def charsPrefix : List Char → List Char → Bool
  | [], _ => true
  | _ :: _, [] => false
  | c :: cs, d :: ds => c == d && charsPrefix cs ds

/-- Python `str.startswith`, as used by the exporter's secret check
(`value.startswith("********")`). -/
def py_startswith (s p : String) : Bool := charsPrefix p.toList s.toList

/-- Python `str()` of a scalar dumped value, as used for the members of
a list in the dotenv flattening.  No list or mapping occurs inside a
list in this schema; those cases render a fixed placeholder where Python
would render the container's repr. -/
def pyStr (v : CVal) : String :=
  match v with
  | .vstr s => s
  | .vint n => toString n
  | .vbool b => if b then "True" else "False"
  | .vnull => "None"
  | .vlist _ => "<list>"
  | .vdict _ => "<dict>"

mutual
/-- From `src/config/helpers/config_exporter.py` lines 37-88
(`_flatten_config_dict`, the leading underscore dropped): flatten a
nested dict into dotenv items.  Nested dicts recurse with the joined
key — the Python recursive call passes only `sep`, so `null_value` and
`skip_secret_values` revert to their defaults `"None"` and `True`; lists
join with commas; `None` renders as `null_value`; booleans lowercase;
a string starting with eight asterisks is skipped entirely when
`skip_secret_values` is on.  The body of Python's `for key, value in
config_dict.items()` loop is split into the mutual `flattenValue`. -/
def flatten_config_dict :
    List (String × CVal) → String → String → String → Bool → List (String × String)
  | [], _, _, _, _ => []
  | (key, value) :: rest, parent_key, sep, null_value, skip_secret_values =>
    flattenValue value (if parent_key ≠ "" then parent_key ++ sep ++ key else key) sep
        null_value skip_secret_values ++
      flatten_config_dict rest parent_key sep null_value skip_secret_values
termination_by cd _ _ _ _ => sizeOf cd

/-- The items one raw value contributes under its flattened key
(the branch on `value` inside `_flatten_config_dict`). -/
def flattenValue : CVal → String → String → String → Bool → List (String × String)
  | .vdict d, new_key, sep, _, _ => flatten_config_dict d new_key sep "None" true
  | .vlist xs, new_key, _, _, _ => [(new_key, String.intercalate "," (xs.map pyStr))]
  | .vnull, new_key, _, null_value, _ => [(new_key, null_value)]
  | .vbool b, new_key, _, _, _ => [(new_key, if b then "true" else "false")]
  | .vstr s, new_key, _, _, skip_secret_values =>
    if py_startswith s "********" && skip_secret_values then [] else [(new_key, s)]
  | .vint n, new_key, _, _, _ => [(new_key, toString n)]
termination_by v _ _ _ _ => sizeOf v
end

/-- The flattening exactly as `dump_config_to_dotenv` invokes it:
default parent key, separator, null rendering and secret skipping. -/
def dumpDotenvItems (cd : List (String × CVal)) : List (String × String) :=
  flatten_config_dict cd "" "__" "None" true

/-- From `src/config/helpers/config_exporter.py` lines 91-122
(`dump_config_to_dotenv`): the key/value pairs written to the dotenv
file — the flattened `model_dump(mode="json")` of the configuration. -/
def dump_config_to_dotenv (c : AppConfig) : List (String × String) :=
  dumpDotenvItems (dumpAppConfigEntries c)

/-- Whether the fixed `__` delimiter occurs inside a single key segment
(the spec assumes schema authors avoid this collision,
spec section 4.2). -/
def containsDunder (s : String) : Bool :=
  decide ("__".toList <:+: s.toList)

/-- The raw value is absent or an explicit null — either way the
validated optional field comes out `None`. -/
def isUnsetVal (o : Option CVal) : Bool :=
  match o with
  | none => true
  | some .vnull => true
  | some _ => false

/-- The raw value is absent, an explicit null, or a string — the shapes
on which an optional string-like field validates without a field
error. -/
def strOrUnset (o : Option CVal) : Bool :=
  match o with
  | none => true
  | some .vnull => true
  | some (.vstr _) => true
  | some _ => false

/-- The raw value is absent or a string — the shapes on which a plain
string field validates without a field error. -/
def strOrAbsent (o : Option CVal) : Bool :=
  match o with
  | none => true
  | some (.vstr _) => true
  | some _ => false

/-- The merged tree's AWS section (the raw value under `AWS_CONFIG`, or
absent) supplies neither `AWS_PROFILE` nor both access-key fields, while
its fields are otherwise well-typed, so the cross-field validator of
aws.py lines 26-35 is what fires. -/
def awsAuthMissing (v : Option CVal) : Bool :=
  match v with
  | none => true
  | some (.vdict es) =>
    isUnsetVal (lookupAlias es "AWS__AWS_PROFILE" "AWS_PROFILE") &&
    (isUnsetVal (lookupAlias es "AWS__AWS_ACCESS_KEY_ID" "AWS_ACCESS_KEY_ID") ||
      isUnsetVal (lookupAlias es "AWS__AWS_SECRET_ACCESS_KEY" "AWS_SECRET_ACCESS_KEY")) &&
    strOrUnset (lookupAlias es "AWS__AWS_ACCESS_KEY_ID" "AWS_ACCESS_KEY_ID") &&
    strOrUnset (lookupAlias es "AWS__AWS_SECRET_ACCESS_KEY" "AWS_SECRET_ACCESS_KEY") &&
    strOrAbsent (lookupKey es "AWS_DEFAULT_REGION")
  | some _ => false

/-- Every violation the merged tree produces outside the AWS section:
the aggregated per-field errors of the remaining sections plus the
top-level extra-key errors. -/
def otherSectionErrs (es : List (String × CVal)) : List VErr :=
  errListOf (coerceStr "SERVICE_NAME" (lookupKey es "SERVICE_NAME") "my_service_name") ++
  errListOf (prefixErrs "DB" (validateDBConfig (lookupKey es "DB"))) ++
  errListOf (prefixErrs "LOOKUP_DATA" (validateLookupDataConfig (lookupKey es "LOOKUP_DATA"))) ++
  errListOf (prefixErrs "LOGGING" (validateLoggingConfig (lookupKey es "LOGGING"))) ++
  extraKeyErrs es

theorem lookupKey_eraseKey (lo : List (String × CVal)) (k' k : String) (h : k' ≠ k) :
    lookupKey (eraseKey lo k') k = lookupKey lo k := by
  induction lo with
  | nil => rfl
  | cons e rest ih =>
    obtain ⟨k₀, v₀⟩ := e
    by_cases h₀ : k₀ = k'
    · subst h₀
      have hk : k₀ ≠ k := h
      simp [eraseKey, lookupKey, hk, ih]
    · by_cases hk : k₀ = k
      · subst hk; simp [eraseKey, lookupKey, h₀]
      · simp [eraseKey, lookupKey, h₀, hk, ih]

theorem lookupKey_overlayDicts (hi : List (String × CVal)) (lo : List (String × CVal)) (k : String) :
    lookupKey (overlayDicts hi lo) k =
      match lookupKey hi k with
      | some v =>
        some (match lookupKey lo k with
          | some w => overlay v w
          | none => v)
      | none => lookupKey lo k := by
  induction hi generalizing lo with
  | nil => simp [overlayDicts, lookupKey]
  | cons e rest ih =>
    obtain ⟨k₀, v₀⟩ := e
    by_cases h₀ : k₀ = k
    · subst h₀
      simp [overlayDicts, lookupKey]
    · simp [overlayDicts, lookupKey, h₀, ih, lookupKey_eraseKey lo k₀ k h₀]

theorem lookupPath_overlay_of_some (t u : CVal) (p : List String) (v : CVal)
    (hv : lookupPath t p = some v) (hleaf : isLeaf v = true) :
    lookupPath (overlay t u) p = some v := by
  induction p generalizing t u with
  | nil =>
    simp [lookupPath] at hv
    subst hv
    cases t <;> cases u <;> simp_all [isLeaf, overlay, lookupPath]
  | cons k rest ih =>
    cases t with
    | vdict es =>
      simp only [lookupPath] at hv
      cases hk : lookupKey es k with
      | none => rw [hk] at hv; simp at hv
      | some c =>
        rw [hk] at hv
        cases u with
        | vdict lo =>
          simp only [overlay, lookupPath, lookupKey_overlayDicts, hk]
          cases hlo : lookupKey lo k with
          | none => exact hv
          | some w => exact ih c w hv
        | vstr s => simp only [overlay, lookupPath, hk]; exact hv
        | vint n => simp only [overlay, lookupPath, hk]; exact hv
        | vbool b => simp only [overlay, lookupPath, hk]; exact hv
        | vnull => simp only [overlay, lookupPath, hk]; exact hv
        | vlist xs => simp only [overlay, lookupPath, hk]; exact hv
    | vstr s => simp [lookupPath] at hv
    | vint n => simp [lookupPath] at hv
    | vbool b => simp [lookupPath] at hv
    | vnull => simp [lookupPath] at hv
    | vlist xs => simp [lookupPath] at hv

theorem noEntry_lookupPath_none (t : CVal) (p : List String) (h : noEntry t p = true) :
    lookupPath t p = none := by
  induction p generalizing t with
  | nil => simp [noEntry] at h
  | cons k rest ih =>
    cases t with
    | vdict es =>
      simp only [noEntry] at h
      cases hk : lookupKey es k with
      | none => simp only [lookupPath, hk]
      | some c =>
        rw [hk] at h
        simp only [lookupPath, hk]
        exact ih c h
    | vstr s => simp [noEntry] at h
    | vint n => simp [noEntry] at h
    | vbool b => simp [noEntry] at h
    | vnull => simp [noEntry] at h
    | vlist xs => simp [noEntry] at h

theorem lookupPath_overlay_of_noEntry (t u : CVal) (p : List String) (h : noEntry t p = true) :
    lookupPath (overlay t u) p = lookupPath u p := by
  induction p generalizing t u with
  | nil => simp [noEntry] at h
  | cons k rest ih =>
    cases t with
    | vdict es =>
      simp only [noEntry] at h
      cases u with
      | vdict lo =>
        simp only [overlay, lookupPath, lookupKey_overlayDicts]
        cases hk : lookupKey es k with
        | none => rfl
        | some c =>
          rw [hk] at h
          cases hlo : lookupKey lo k with
          | none =>
            have := noEntry_lookupPath_none c rest h
            simp [this]
          | some w => exact ih c w h
      | vstr s =>
        cases hk : lookupKey es k with
        | none => simp only [overlay, lookupPath, hk]
        | some c =>
          rw [hk] at h
          simp only [overlay, lookupPath, hk]
          exact noEntry_lookupPath_none c rest h
      | vint n =>
        cases hk : lookupKey es k with
        | none => simp only [overlay, lookupPath, hk]
        | some c =>
          rw [hk] at h
          simp only [overlay, lookupPath, hk]
          exact noEntry_lookupPath_none c rest h
      | vbool b =>
        cases hk : lookupKey es k with
        | none => simp only [overlay, lookupPath, hk]
        | some c =>
          rw [hk] at h
          simp only [overlay, lookupPath, hk]
          exact noEntry_lookupPath_none c rest h
      | vnull =>
        cases hk : lookupKey es k with
        | none => simp only [overlay, lookupPath, hk]
        | some c =>
          rw [hk] at h
          simp only [overlay, lookupPath, hk]
          exact noEntry_lookupPath_none c rest h
      | vlist xs =>
        cases hk : lookupKey es k with
        | none => simp only [overlay, lookupPath, hk]
        | some c =>
          rw [hk] at h
          simp only [overlay, lookupPath, hk]
          exact noEntry_lookupPath_none c rest h
    | vstr s => simp [noEntry] at h
    | vint n => simp [noEntry] at h
    | vbool b => simp [noEntry] at h
    | vnull => simp [noEntry] at h
    | vlist xs => simp [noEntry] at h

theorem mergeSources_cons (t : CVal) (ts : List CVal) :
    mergeSources (t :: ts) = overlay t (mergeSources ts) := rfl

theorem lookupPath_mergeSources_wins (pre : List CVal) (t : CVal) (post : List CVal)
    (p : List String) (v : CVal)
    (hpre : ∀ u ∈ pre, noEntry u p = true)
    (ht : lookupPath t p = some v) (hleaf : isLeaf v = true) :
    lookupPath (mergeSources (pre ++ t :: post)) p = some v := by
  induction pre with
  | nil =>
    rw [List.nil_append, mergeSources_cons]
    exact lookupPath_overlay_of_some t (mergeSources post) p v ht hleaf
  | cons u pre' ih =>
    rw [List.cons_append, mergeSources_cons]
    rw [lookupPath_overlay_of_noEntry u _ p (hpre u (by simp))]
    exact ih (fun x hx => hpre x (by simp [hx]))

theorem lookupPath_mergeSources_none (ts : List CVal) (p : List String)
    (hne : p ≠ [])
    (h : ∀ u ∈ ts, noEntry u p = true) :
    lookupPath (mergeSources ts) p = none := by
  induction ts with
  | nil =>
    cases p with
    | nil => exact absurd rfl hne
    | cons k rest => simp [mergeSources, lookupPath, lookupKey]
  | cons u ts' ih =>
    rw [mergeSources_cons]
    rw [lookupPath_overlay_of_noEntry u _ p (h u (by simp))]
    exact ih (fun x hx => h x (by simp [hx]))

theorem prefixErrs_ok_inv {α : Type} (k : String) (r : Except (List VErr) α) (a : α)
    (h : prefixErrs k r = .ok a) : r = .ok a := by
  cases r with
  | ok b => simpa [prefixErrs] using h
  | error e => simp [prefixErrs] at h

theorem collect2_ok_inv {α β : Type} (ra : Except (List VErr) α) (rb : Except (List VErr) β)
    (x : α × β) (h : collect2 ra rb = .ok x) : ra = .ok x.1 ∧ rb = .ok x.2 := by
  cases ra with
  | ok a =>
    cases rb with
    | ok b =>
      simp only [collect2] at h
      injection h with h'
      subst h'
      exact ⟨rfl, rfl⟩
    | error e => simp [collect2] at h
  | error e =>
    cases rb <;> simp [collect2] at h

theorem errListOf_collect2 {α β : Type} (ra : Except (List VErr) α) (rb : Except (List VErr) β)
    (h : errListOf ra ++ errListOf rb ≠ []) :
    collect2 ra rb = .error (errListOf ra ++ errListOf rb) := by
  cases ra with
  | ok a =>
    cases rb with
    | ok b => simp [errListOf] at h
    | error e => simp [collect2, errListOf]
  | error e =>
    cases rb <;> simp [collect2, errListOf]

theorem exceptMap_ok_inv {α β : Type} (f : α → β) (r : Except (List VErr) α) (b : β)
    (h : r.map f = .ok b) : ∃ a, r = .ok a ∧ b = f a := by
  cases r with
  | ok a =>
    refine ⟨a, rfl, ?_⟩
    simp only [Except.map] at h
    injection h with h'
    exact h'.symm
  | error e => simp [Except.map] at h

theorem validateAppConfig_ok_DB (es : List (String × CVal)) (c : AppConfig)
    (h : validateAppConfig (.vdict es) = .ok c) :
    validateDBConfig (lookupKey es "DB") = .ok c.DB := by
  simp only [validateAppConfig] at h
  cases hc : collect2 (collect2 (collect2 (collect2
      (coerceStr "SERVICE_NAME" (lookupKey es "SERVICE_NAME") "my_service_name")
      (prefixErrs "DB" (validateDBConfig (lookupKey es "DB"))))
      (prefixErrs "AWS_CONFIG" (validateAWSConfig (lookupKey es "AWS_CONFIG"))))
      (prefixErrs "LOOKUP_DATA" (validateLookupDataConfig (lookupKey es "LOOKUP_DATA"))))
      (prefixErrs "LOGGING" (validateLoggingConfig (lookupKey es "LOGGING"))) with
  | error e => rw [hc] at h; simp at h
  | ok x =>
    rw [hc] at h
    cases hex : extraKeyErrs es with
    | nil =>
      rw [hex] at h
      injection h with h'
      obtain ⟨h1, -⟩ := collect2_ok_inv _ _ _ hc
      obtain ⟨h2, -⟩ := collect2_ok_inv _ _ _ h1
      obtain ⟨h3, -⟩ := collect2_ok_inv _ _ _ h2
      obtain ⟨-, h4⟩ := collect2_ok_inv _ _ _ h3
      rw [← h']
      exact prefixErrs_ok_inv "DB" _ _ h4
    | cons a l => rw [hex] at h; simp at h

theorem validateDBConfig_ok_PORT (des : List (String × CVal)) (d : DBConfig)
    (h : validateDBConfig (some (.vdict des)) = .ok d) :
    coerceInt "PORT" (lookupKey des "PORT") 5432 = .ok d.PORT := by
  simp only [validateDBConfig] at h
  obtain ⟨x, hx, hd⟩ := exceptMap_ok_inv _ _ _ h
  obtain ⟨h1, -⟩ := collect2_ok_inv _ _ _ hx
  obtain ⟨-, h2⟩ := collect2_ok_inv _ _ _ h1
  subst hd
  exact h2

theorem string_append_ne_empty_left (a b : String) (h : a ≠ "") : a ++ b ≠ "" := by
  intro h0
  apply h
  have hd : a.data ++ b.data = ([] : List Char) := congrArg String.data h0
  obtain ⟨ha, -⟩ := List.append_eq_nil.mp hd
  cases a
  simp_all

theorem containsDunder_of_append (x a : String) : containsDunder (x ++ "__" ++ a) = true := by
  simp only [containsDunder, decide_eq_true_eq]
  refine ⟨x.toList, a.toList, ?_⟩
  show x.data ++ "__".data ++ a.data = ((x ++ "__") ++ a).data
  simp [show ∀ u v : String, (u ++ v).data = u.data ++ v.data from fun u v => rfl]

theorem lookup_eq_none_of_not_mem {β : Type} (l : List (String × β)) (a : String)
    (h : a ∉ l.map Prod.fst) : l.lookup a = none := by
  induction l with
  | nil => rfl
  | cons e rest ih =>
    obtain ⟨k₀, b₀⟩ := e
    simp only [List.map_cons, List.mem_cons] at h
    push_neg at h
    have hne : (a == k₀) = false := by simp [h.1]
    simp [List.lookup, hne, ih h.2]

theorem lookup_append_of_left_none {β : Type} (l1 l2 : List (String × β)) (a : String)
    (h : l1.lookup a = none) : (l1 ++ l2).lookup a = l2.lookup a := by
  induction l1 with
  | nil => rfl
  | cons e rest ih =>
    obtain ⟨k₀, b₀⟩ := e
    cases hb : (a == k₀) with
    | true => simp [List.lookup, hb] at h
    | false =>
      simp only [List.lookup, hb] at h
      simp [List.lookup, hb, ih h]

theorem flattenValue_key (v : CVal) (nk sep nv : String) (sk : Bool) :
    ∀ key val, nk ≠ "" → (key, val) ∈ flattenValue v nk sep nv sk →
      key = nk ∨ ∃ a, key = nk ++ sep ++ a := by
  refine flattenValue.induct
    (fun cd pk sep nv sk => ∀ key val, pk ≠ "" →
      (key, val) ∈ flatten_config_dict cd pk sep nv sk → ∃ a, key = pk ++ sep ++ a)
    (fun v nk sep nv sk => ∀ key val, nk ≠ "" →
      (key, val) ∈ flattenValue v nk sep nv sk → key = nk ∨ ∃ a, key = nk ++ sep ++ a)
    ?_ ?_ ?_ ?_ ?_ ?_ ?_ ?_ ?_ v nk sep nv sk
  · intro pk sep' nv' sk' key val hpk hmem
    simp [flatten_config_dict] at hmem
  · intro k₀ v' rest pk sep' nv' sk' ih2 ih1 key val hpk hmem
    simp only [flatten_config_dict, List.mem_append] at hmem
    rw [dif_pos hpk] at ih2
    rcases hmem with hleft | hright
    · rw [if_pos hpk] at hleft
      have hnk : pk ++ sep' ++ k₀ ≠ "" :=
        string_append_ne_empty_left _ _ (string_append_ne_empty_left _ _ hpk)
      rcases ih2 key val hnk hleft with hkey | ⟨a, ha⟩
      · exact ⟨k₀, hkey⟩
      · exact ⟨k₀ ++ (sep' ++ a), by simp only [ha, String.append_assoc]⟩
    · exact ih1 key val hpk hright
  · intro d nk' sep' nv' sk' ih1 key val hnk hmem
    simp only [flattenValue] at hmem
    exact .inr (ih1 key val hnk hmem)
  · intro xs nk' sep' nv' sk' key val hnk hmem
    simp only [flattenValue, List.mem_singleton] at hmem
    exact .inl (congrArg Prod.fst hmem)
  · intro nk' sep' nv' sk' key val hnk hmem
    simp only [flattenValue, List.mem_singleton] at hmem
    exact .inl (congrArg Prod.fst hmem)
  · intro b nk' sep' nv' sk' key val hnk hmem
    simp only [flattenValue, List.mem_singleton] at hmem
    exact .inl (congrArg Prod.fst hmem)
  · intro s nk' sep' nv' sk' hskip key val hnk hmem
    rw [show flattenValue (.vstr s) nk' sep' nv' sk' = [] from by
      simp only [flattenValue, if_pos hskip]] at hmem
    exact absurd hmem (List.not_mem_nil _)
  · intro s nk' sep' nv' sk' hskip key val hnk hmem
    rw [show flattenValue (.vstr s) nk' sep' nv' sk' = [(nk', s)] from by
      simp only [flattenValue, if_neg hskip]] at hmem
    exact .inl (congrArg Prod.fst (List.mem_singleton.mp hmem))
  · intro n nk' sep' nv' sk' key val hnk hmem
    simp only [flattenValue, List.mem_singleton] at hmem
    exact .inl (congrArg Prod.fst hmem)

theorem flatten_key_prefix (cd : List (String × CVal)) (pk sep nv : String) (sk : Bool) :
    ∀ key val, pk ≠ "" → (key, val) ∈ flatten_config_dict cd pk sep nv sk →
      ∃ a, key = pk ++ sep ++ a := by
  induction cd with
  | nil =>
    intro key val hpk hmem
    simp [flatten_config_dict] at hmem
  | cons e rest ih =>
    obtain ⟨k₀, v₀⟩ := e
    intro key val hpk hmem
    simp only [flatten_config_dict, List.mem_append] at hmem
    rcases hmem with hleft | hright
    · rw [if_pos hpk] at hleft
      have hnk : pk ++ sep ++ k₀ ≠ "" :=
        string_append_ne_empty_left _ _ (string_append_ne_empty_left _ _ hpk)
      rcases flattenValue_key v₀ _ sep nv sk key val hnk hleft with hkey | ⟨a, ha⟩
      · exact ⟨k₀, hkey⟩
      · exact ⟨k₀ ++ (sep ++ a), by simp only [ha, String.append_assoc]⟩
    · exact ih key val hpk hright

theorem lookup_flatten_top_none (cd : List (String × CVal)) (nv : String) (sk : Bool) (k : String)
    (hk : k ∉ cd.map Prod.fst)
    (hne : "" ∉ cd.map Prod.fst)
    (hdund : containsDunder k = false) :
    (flatten_config_dict cd "" "__" nv sk).lookup k = none := by
  induction cd with
  | nil =>
    rw [show flatten_config_dict [] "" "__" nv sk = [] from by simp [flatten_config_dict]]
    rfl
  | cons e rest ih =>
    obtain ⟨k₀, v₀⟩ := e
    simp only [List.map_cons, List.mem_cons] at hk hne
    push_neg at hk hne
    obtain ⟨hkne, hk'⟩ := hk
    obtain ⟨hene, hne'⟩ := hne
    simp only [flatten_config_dict]
    rw [if_neg (by simp)]
    have hleftnone : (flattenValue v₀ k₀ "__" nv sk).lookup k = none := by
      apply lookup_eq_none_of_not_mem
      intro hcontra
      obtain ⟨⟨key, val⟩, hmem, hfst⟩ := List.mem_map.mp hcontra
      rcases flattenValue_key v₀ k₀ "__" nv sk key val (fun h => hene h.symm) hmem with
        h1 | ⟨a, ha⟩
      · exact hkne (by rw [← hfst, h1])
      · rw [← hfst, ha] at hdund
        rw [containsDunder_of_append k₀ a] at hdund
        exact absurd hdund (by simp)
    rw [lookup_append_of_left_none _ _ _ hleftnone]
    exact ih hk' hne'

/-- C10: in the dotenv flattening with secret-skipping on (the defaults
`dump_config_to_dotenv` uses), a top-level key whose value is a string
beginning with eight asterisks produces no entry at all — the flat key
is absent from the output. -/
theorem spec_c10 (cd : List (String × CVal)) (k s : String)
    (hnodup : (cd.map Prod.fst).Nodup)
    (hempty : "" ∉ cd.map Prod.fst)
    (hval : lookupKey cd k = some (.vstr s))
    (hsecret : py_startswith s "********" = true)
    (hdund : containsDunder k = false) :
    (dumpDotenvItems cd).lookup k = none := by
  induction cd with
  | nil => simp [lookupKey] at hval
  | cons e rest ih =>
    obtain ⟨k₀, v₀⟩ := e
    simp only [List.map_cons, List.nodup_cons] at hnodup
    obtain ⟨hk₀notin, hnodup'⟩ := hnodup
    simp only [List.map_cons, List.mem_cons] at hempty
    push_neg at hempty
    obtain ⟨hk₀ne', hempty'⟩ := hempty
    by_cases hkk : k₀ = k
    · subst hkk
      have hv : v₀ = .vstr s := by
        rw [show lookupKey ((k₀, v₀) :: rest) k₀ = some v₀ from by simp [lookupKey]] at hval
        injection hval
      subst hv
      unfold dumpDotenvItems
      simp only [flatten_config_dict]
      rw [if_neg (by simp)]
      rw [show flattenValue (.vstr s) k₀ "__" "None" true = [] from by
        simp [flattenValue, hsecret]]
      rw [List.nil_append]
      exact lookup_flatten_top_none rest "None" true k₀ hk₀notin hempty' hdund
    · have hval' : lookupKey rest k = some (.vstr s) := by
        rw [show lookupKey ((k₀, v₀) :: rest) k = lookupKey rest k from by
          simp [lookupKey, hkk]] at hval
        exact hval
      unfold dumpDotenvItems at ih ⊢
      simp only [flatten_config_dict]
      rw [if_neg (by simp)]
      have hleftnone : (flattenValue v₀ k₀ "__" "None" true).lookup k = none := by
        apply lookup_eq_none_of_not_mem
        intro hcontra
        obtain ⟨⟨key, val⟩, hmem, hfst⟩ := List.mem_map.mp hcontra
        rcases flattenValue_key v₀ k₀ "__" "None" true key val (fun h => hk₀ne' h.symm) hmem with
          h1 | ⟨a, ha⟩
        · exact hkk (by rw [← hfst, h1])
        · rw [← hfst, ha] at hdund
          rw [containsDunder_of_append k₀ a] at hdund
          exact absurd hdund (by simp)
      rw [lookup_append_of_left_none _ _ _ hleftnone]
      exact ih hnodup' hempty' hval'

/-- C10 witness: a non-secret top-level string value that merely starts
with eight asterisks is dropped from the dotenv flattening. -/
theorem spec_c10_witness :
    (([("SERVICE_NAME", CVal.vstr "********plain_value"),
        ("DB", CVal.vdict [("PORT", CVal.vint 5432)])].map Prod.fst).Nodup) ∧
    "" ∉ ([("SERVICE_NAME", CVal.vstr "********plain_value"),
        ("DB", CVal.vdict [("PORT", CVal.vint 5432)])].map Prod.fst) ∧
    lookupKey [("SERVICE_NAME", CVal.vstr "********plain_value"),
        ("DB", CVal.vdict [("PORT", CVal.vint 5432)])] "SERVICE_NAME" =
      some (.vstr "********plain_value") ∧
    py_startswith "********plain_value" "********" = true ∧
    containsDunder "SERVICE_NAME" = false ∧
    (dumpDotenvItems [("SERVICE_NAME", CVal.vstr "********plain_value"),
        ("DB", CVal.vdict [("PORT", CVal.vint 5432)])]).lookup "SERVICE_NAME" = none :=
  ⟨by decide, by decide, rfl, rfl, by decide,
    spec_c10 _ "SERVICE_NAME" "********plain_value" (by decide) (by decide) rfl
      rfl (by decide)⟩

/-- C1: for every leaf key, the loaded raw value is the one from the
highest-priority source that supplies the key, under the fixed order
secrets > environment > dotenv > structured file of
`settings_customise_sources`; a key supplied by no source resolves to
the schema default. -/
theorem spec_c1 :
    (∀ (s e d i : CVal) (p : List String) (v dflt : CVal) (pre : List CVal) (t : CVal)
        (post : List CVal),
      settings_customise_sources s e d i = pre ++ t :: post →
      (∀ u ∈ pre, noEntry u p = true) →
      lookupPath t p = some v →
      isLeaf v = true →
      loadedValue s e d i p dflt = v) ∧
    (∀ (s e d i : CVal) (p : List String) (dflt : CVal),
      p ≠ [] →
      (∀ u ∈ settings_customise_sources s e d i, noEntry u p = true) →
      loadedValue s e d i p dflt = dflt) := by
  constructor
  · intro s e d i p v dflt pre t post hdec hpre ht hleaf
    unfold loadedValue
    rw [hdec, lookupPath_mergeSources_wins pre t post p v hpre ht hleaf]
    rfl
  · intro s e d i p dflt hne h
    unfold loadedValue
    rw [lookupPath_mergeSources_none _ p hne h]
    rfl

/-- C1 witness: the environment tree beats the dotenv tree for
`SERVICE_NAME` (spec Scenario A), and a key no source supplies resolves
to its default. -/
theorem spec_c1_witness :
    settings_customise_sources (.vdict []) (.vdict [("SERVICE_NAME", .vstr "env_value")])
        (.vdict [("SERVICE_NAME", .vstr "dotenv_value")]) (.vdict []) =
      [CVal.vdict []] ++ CVal.vdict [("SERVICE_NAME", .vstr "env_value")] ::
        [CVal.vdict [("SERVICE_NAME", .vstr "dotenv_value")], CVal.vdict []] ∧
    noEntry (.vdict []) ["SERVICE_NAME"] = true ∧
    lookupPath (.vdict [("SERVICE_NAME", .vstr "env_value")]) ["SERVICE_NAME"] =
      some (.vstr "env_value") ∧
    loadedValue (.vdict []) (.vdict [("SERVICE_NAME", .vstr "env_value")])
        (.vdict [("SERVICE_NAME", .vstr "dotenv_value")]) (.vdict []) ["SERVICE_NAME"]
        (.vstr "my_service_name") =
      .vstr "env_value" ∧
    loadedValue (.vdict []) (.vdict []) (.vdict []) (.vdict []) ["SERVICE_NAME"]
        (.vstr "my_service_name") =
      .vstr "my_service_name" :=
  ⟨rfl, rfl, rfl,
    spec_c1.1 (.vdict []) (.vdict [("SERVICE_NAME", .vstr "env_value")])
      (.vdict [("SERVICE_NAME", .vstr "dotenv_value")]) (.vdict []) ["SERVICE_NAME"]
      (.vstr "env_value") (.vstr "my_service_name") [CVal.vdict []]
      (CVal.vdict [("SERVICE_NAME", .vstr "env_value")])
      [CVal.vdict [("SERVICE_NAME", .vstr "dotenv_value")], CVal.vdict []] rfl
      (by intro u hu; simp at hu; subst hu; rfl) rfl rfl,
    spec_c1.2 (.vdict []) (.vdict []) (.vdict []) (.vdict []) ["SERVICE_NAME"]
      (.vstr "my_service_name") (by simp)
      (by intro u hu; simp [settings_customise_sources] at hu; subst hu; rfl)⟩

/-- C3: once a call to the memoized `get_config` has returned a
configuration, the next call returns that very cached instance and does
not run the body again — the cache state, including the construction
counter, is untouched. -/
theorem spec_c3 (w : World) (st : CacheState) (c : AppConfig)
    (h : (get_config w st).1 = .ok c) :
    get_config w (get_config w st).2 = (.ok c, (get_config w st).2) := by
  obtain ⟨cached, builds⟩ := st
  cases cached with
  | some c0 =>
    simp only [get_config] at h ⊢
    injection h with h'
    subst h'
    rfl
  | none =>
    cases hg : (getConfigFresh w).1 with
    | ok c1 =>
      simp only [get_config, hg] at h ⊢
      injection h with h'
      subst h'
      rfl
    | error e =>
      simp only [get_config, hg] at h
      exact Except.noConfusion h

/-- C4: when the structured file exists but fails to parse, the load
does not abort — the structured-file source contributes an empty tree
and the result is exactly the validation of the remaining sources. -/
theorem spec_c4 (w : World) (hex : w.yamlExists = true) (hp : w.yamlParse = .error ()) :
    (getConfigFresh w).1 =
      validateAppConfig
        (mergeSources
          (settings_customise_sources w.secretsTree w.envTree w.dotenvTree (.vdict []))) := by
  obtain ⟨bd, ye, yf, ypr, sde, efe, stree, etree, dtree⟩ := w
  simp only at hex hp
  subst hex
  subst hp
  rfl

/-- C4 witness: a world whose config file exists but is unparsable loads
from the remaining sources. -/
theorem spec_c4_witness :
    (World.mk "/proj" true true (.error ()) false false (.vdict [])
          (.vdict [("AWS_CONFIG", .vdict [("AWS_PROFILE", .vstr "prod")])]) (.vdict [])).yamlExists
        = true ∧
    (World.mk "/proj" true true (.error ()) false false (.vdict [])
          (.vdict [("AWS_CONFIG", .vdict [("AWS_PROFILE", .vstr "prod")])]) (.vdict [])).yamlParse
        = .error () ∧
    (getConfigFresh
        (World.mk "/proj" true true (.error ()) false false (.vdict [])
          (.vdict [("AWS_CONFIG", .vdict [("AWS_PROFILE", .vstr "prod")])]) (.vdict []))).1 =
      validateAppConfig
        (mergeSources
          (settings_customise_sources (.vdict [])
            (.vdict [("AWS_CONFIG", .vdict [("AWS_PROFILE", .vstr "prod")])]) (.vdict [])
            (.vdict []))) :=
  ⟨rfl, rfl,
    spec_c4
      (World.mk "/proj" true true (.error ()) false false (.vdict [])
        (.vdict [("AWS_CONFIG", .vdict [("AWS_PROFILE", .vstr "prod")])]) (.vdict []))
      rfl rfl⟩

/-- C9 counterexample: the recorded source sequence is not in the fixed
precedence order — the YAML record, appended by `load_config_yaml`
before the model init runs `_track_all_sources`, comes first, not
last. -/
theorem spec_c9_counterexample :
    (getConfigFresh
        (World.mk "/proj" true true (.ok (.vdict [])) true true (.vdict []) (.vdict [])
          (.vdict []))).2.map ConfigSource.source_type ≠
      ["secrets", "environment", "dotenv", "yaml"] := by
  decide

/-- C9 (amended): the recorded sequence holds one record per probed
source with its correct availability, but in the order the code probes
them — the structured file first (tracked by `load_config_yaml`), then
secrets, environment and dotenv (tracked by the model's init) — not in
the precedence order. -/
theorem spec_c9 (w : World) :
    (getConfigFresh w).2.map ConfigSource.source_type =
        ["yaml", "secrets", "environment", "dotenv"] ∧
    (getConfigFresh w).2.map ConfigSource.available =
        [w.yamlExists && w.yamlIsFile, w.secretsDirExists, true, w.envFileExists] := by
  obtain ⟨bd, ye, yf, ypr, sde, efe, stree, etree, dtree⟩ := w
  cases ye <;> cases ypr <;> exact ⟨rfl, rfl⟩

/-- C3 witness: a concrete world in which the first call builds and
caches the configuration and the second call returns the identical
cached result with no rebuild. -/
theorem spec_c3_witness :
    (get_config
        (World.mk "/proj" false false (.error ()) false false (.vdict [])
          (.vdict [("AWS_CONFIG", .vdict [("AWS_PROFILE", .vstr "prod")])]) (.vdict []))
        (CacheState.mk none 0)).1 =
      .ok (AppConfig.mk "my_service_name" defaultDBConfig
        (AWSConfig.mk (some "prod") none none "us-east-1") defaultLookupDataConfig
        defaultLoggingConfig) ∧
    get_config
        (World.mk "/proj" false false (.error ()) false false (.vdict [])
          (.vdict [("AWS_CONFIG", .vdict [("AWS_PROFILE", .vstr "prod")])]) (.vdict []))
        (get_config
          (World.mk "/proj" false false (.error ()) false false (.vdict [])
            (.vdict [("AWS_CONFIG", .vdict [("AWS_PROFILE", .vstr "prod")])]) (.vdict []))
          (CacheState.mk none 0)).2 =
      (.ok (AppConfig.mk "my_service_name" defaultDBConfig
          (AWSConfig.mk (some "prod") none none "us-east-1") defaultLookupDataConfig
          defaultLoggingConfig),
        (get_config
          (World.mk "/proj" false false (.error ()) false false (.vdict [])
            (.vdict [("AWS_CONFIG", .vdict [("AWS_PROFILE", .vstr "prod")])]) (.vdict []))
          (CacheState.mk none 0)).2) := by
  have hm : mergeSources
      (settings_customise_sources (.vdict [])
        (.vdict [("AWS_CONFIG", .vdict [("AWS_PROFILE", .vstr "prod")])]) (.vdict [])
        (.vdict [])) =
      .vdict [("AWS_CONFIG", .vdict [("AWS_PROFILE", .vstr "prod")])] := by
    simp [mergeSources, settings_customise_sources, overlay, overlayDicts, eraseKey, lookupKey]
  have hfresh : (getConfigFresh
      (World.mk "/proj" false false (.error ()) false false (.vdict [])
        (.vdict [("AWS_CONFIG", .vdict [("AWS_PROFILE", .vstr "prod")])]) (.vdict []))).1 =
      .ok (AppConfig.mk "my_service_name" defaultDBConfig
        (AWSConfig.mk (some "prod") none none "us-east-1") defaultLookupDataConfig
        defaultLoggingConfig) := by
    show validateAppConfig
        (mergeSources
          (settings_customise_sources (.vdict [])
            (.vdict [("AWS_CONFIG", .vdict [("AWS_PROFILE", .vstr "prod")])]) (.vdict [])
            (.vdict []))) = _
    rw [hm]
    rfl
  have h1 : (get_config
      (World.mk "/proj" false false (.error ()) false false (.vdict [])
        (.vdict [("AWS_CONFIG", .vdict [("AWS_PROFILE", .vstr "prod")])]) (.vdict []))
      (CacheState.mk none 0)).1 =
      .ok (AppConfig.mk "my_service_name" defaultDBConfig
        (AWSConfig.mk (some "prod") none none "us-east-1") defaultLookupDataConfig
        defaultLoggingConfig) := by
    simp only [get_config, hfresh]
  exact ⟨h1, spec_c3 _ _ _ h1⟩

/-- C5 counterexample: a merged tree with an unknown key nested inside
the `DB` section validates successfully — the unknown nested key is
silently ignored, not rejected. -/
theorem spec_c5_counterexample :
    validateAppConfig
        (.vdict [("DB", .vdict [("UNKNOWN_KEY", .vstr "typo")]),
          ("AWS_CONFIG", .vdict [("AWS_PROFILE", .vstr "prod")])]) =
      .ok (AppConfig.mk "my_service_name" defaultDBConfig
        (AWSConfig.mk (some "prod") none none "us-east-1") defaultLookupDataConfig
        defaultLoggingConfig) := rfl

/-- C5 (amended): an unknown key at the top level of the merged tree is
a hard error (the settings model carries `extra="forbid"`), but an
unknown key inside a nested section model is silently ignored — the
section models are plain pydantic `BaseModel`s, which do not inherit the
forbid setting and default to `extra="ignore"`. -/
theorem spec_c5 :
    (∀ (es : List (String × CVal)) (k : String) (v : CVal),
      (k, v) ∈ es → k ∉ appConfigFieldNames →
      ∃ errs, validateAppConfig (.vdict es) = .error errs ∧
        (VErr.mk [k] "Extra inputs are not permitted") ∈ errs) ∧
    (∀ (des : List (String × CVal)) (k : String) (v : CVal),
      k ∉ dbConfigFieldNames →
      validateDBConfig (some (.vdict ((k, v) :: des))) = validateDBConfig (some (.vdict des))) := by
  constructor
  · intro es k v hmem hk
    have hex : VErr.mk [k] "Extra inputs are not permitted" ∈ extraKeyErrs es := by
      simp only [extraKeyErrs, List.mem_map, List.mem_filter]
      exact ⟨(k, v), ⟨hmem, by simpa using hk⟩, rfl⟩
    simp only [validateAppConfig]
    cases hcol : collect2 (collect2 (collect2 (collect2
        (coerceStr "SERVICE_NAME" (lookupKey es "SERVICE_NAME") "my_service_name")
        (prefixErrs "DB" (validateDBConfig (lookupKey es "DB"))))
        (prefixErrs "AWS_CONFIG" (validateAWSConfig (lookupKey es "AWS_CONFIG"))))
        (prefixErrs "LOOKUP_DATA" (validateLookupDataConfig (lookupKey es "LOOKUP_DATA"))))
        (prefixErrs "LOGGING" (validateLoggingConfig (lookupKey es "LOGGING"))) with
    | ok x =>
      cases hexl : extraKeyErrs es with
      | nil =>
        rw [hexl] at hex
        exact absurd hex (List.not_mem_nil _)
      | cons a l =>
        refine ⟨_, rfl, ?_⟩
        rw [hexl] at hex
        exact List.mem_append.mpr (.inr hex)
    | error e2 =>
      cases hexl : extraKeyErrs es with
      | nil =>
        rw [hexl] at hex
        exact absurd hex (List.not_mem_nil _)
      | cons a l =>
        refine ⟨_, rfl, ?_⟩
        rw [hexl] at hex
        exact List.mem_append.mpr (.inr hex)
  · intro des k v hk
    have h1 : ∀ f, f ∈ dbConfigFieldNames → lookupKey ((k, v) :: des) f = lookupKey des f := by
      intro f hf
      have hne : k ≠ f := fun h => hk (h ▸ hf)
      simp [lookupKey, hne]
    simp only [validateDBConfig]
    rw [h1 "DB_NAME" (by simp [dbConfigFieldNames]),
      h1 "SCHEMA_NAMES" (by simp [dbConfigFieldNames]),
      h1 "USERNAME" (by simp [dbConfigFieldNames]),
      h1 "PASSWORD" (by simp [dbConfigFieldNames]),
      h1 "HOST" (by simp [dbConfigFieldNames]),
      h1 "PORT" (by simp [dbConfigFieldNames]),
      h1 "PERF" (by simp [dbConfigFieldNames])]

/-- C5 witness: a top-level unknown key is rejected with its extra-key
error, while the same situation one level down inside `DB` leaves
validation unchanged. -/
theorem spec_c5_witness :
    ("BOGUS", CVal.vint 1) ∈ [("BOGUS", CVal.vint 1)] ∧
    "BOGUS" ∉ appConfigFieldNames ∧
    (∃ errs, validateAppConfig (.vdict [("BOGUS", CVal.vint 1)]) = .error errs ∧
      (VErr.mk ["BOGUS"] "Extra inputs are not permitted") ∈ errs) ∧
    "UNKNOWN_KEY" ∉ dbConfigFieldNames ∧
    validateDBConfig (some (.vdict [("UNKNOWN_KEY", .vstr "x")])) =
      validateDBConfig (some (.vdict [])) :=
  ⟨List.mem_cons_self _ _, by decide,
    spec_c5.1 [("BOGUS", CVal.vint 1)] "BOGUS" (CVal.vint 1) (List.mem_cons_self _ _) (by decide),
    by decide,
    spec_c5.2 [] "UNKNOWN_KEY" (CVal.vstr "x") (by decide)⟩

/-- C7: when the dotenv source supplies the flat key `DB__PORT` with
text `9999` and no higher-priority source (secrets, environment) touches
`DB.PORT`, the validated configuration's `DB.PORT` is the integer
9999 — the `__` delimiter reconstructs the nesting and the string
coerces to the declared `int`. -/
theorem spec_c7 (s e i : CVal) (c : AppConfig)
    (hs : noEntry s ["DB", "PORT"] = true)
    (he : noEntry e ["DB", "PORT"] = true)
    (hok : validateAppConfig
        (mergeSources
          (settings_customise_sources s e (unflattenFlat [("DB__PORT", "9999")]) i)) = .ok c) :
    c.DB.PORT = 9999 := by
  have hd : lookupPath (unflattenFlat [("DB__PORT", "9999")]) ["DB", "PORT"] =
      some (.vstr "9999") := rfl
  have hm : lookupPath
      (mergeSources (settings_customise_sources s e (unflattenFlat [("DB__PORT", "9999")]) i))
      ["DB", "PORT"] = some (.vstr "9999") := by
    exact lookupPath_mergeSources_wins [s, e] (unflattenFlat [("DB__PORT", "9999")]) [i]
      ["DB", "PORT"] (.vstr "9999")
      (by
        intro u hu
        simp only [List.mem_cons, List.not_mem_nil, or_false] at hu
        rcases hu with h | h <;> subst h
        · exact hs
        · exact he)
      hd rfl
  cases hM : mergeSources (settings_customise_sources s e (unflattenFlat [("DB__PORT", "9999")]) i) with
  | vstr a => rw [hM] at hm; exact Option.noConfusion hm
  | vint a => rw [hM] at hm; exact Option.noConfusion hm
  | vbool a => rw [hM] at hm; exact Option.noConfusion hm
  | vnull => rw [hM] at hm; exact Option.noConfusion hm
  | vlist a => rw [hM] at hm; exact Option.noConfusion hm
  | vdict mes =>
    rw [hM] at hm hok
    simp only [lookupPath] at hm
    cases hdb : lookupKey mes "DB" with
    | none => rw [hdb] at hm; exact Option.noConfusion hm
    | some dbv =>
      rw [hdb] at hm
      cases dbv with
      | vstr a => exact Option.noConfusion hm
      | vint a => exact Option.noConfusion hm
      | vbool a => exact Option.noConfusion hm
      | vnull => exact Option.noConfusion hm
      | vlist a => exact Option.noConfusion hm
      | vdict des =>
        simp only [lookupPath] at hm
        cases hport : lookupKey des "PORT" with
        | none => rw [hport] at hm; exact Option.noConfusion hm
        | some pv =>
          rw [hport] at hm
          simp only [lookupPath] at hm
          injection hm with hpv
          subst hpv
          have hDB := validateAppConfig_ok_DB mes c hok
          rw [hdb] at hDB
          have hP := validateDBConfig_ok_PORT des c.DB hDB
          rw [hport] at hP
          rw [show coerceInt "PORT" (some (.vstr "9999")) 5432 = .ok 9999 from rfl] at hP
          injection hP with h'
          exact h'.symm

/-- C7 witness: with the dotenv pair `DB__PORT=9999` and no other source
touching the key, the loaded configuration carries the integer 9999. -/
theorem spec_c7_witness :
    noEntry (.vdict []) ["DB", "PORT"] = true ∧
    noEntry (.vdict [("AWS_CONFIG", .vdict [("AWS_PROFILE", .vstr "prod")])]) ["DB", "PORT"] =
      true ∧
    validateAppConfig
        (mergeSources
          (settings_customise_sources (.vdict [])
            (.vdict [("AWS_CONFIG", .vdict [("AWS_PROFILE", .vstr "prod")])])
            (unflattenFlat [("DB__PORT", "9999")]) (.vdict []))) =
      .ok (AppConfig.mk "my_service_name"
        (DBConfig.mk "DBNAME" "SCHEMA" ⟨"DB_USERNAME"⟩ ⟨"DB_PASS"⟩ "127.0.0.1" 9999
          defaultDBPerfConfig)
        (AWSConfig.mk (some "prod") none none "us-east-1") defaultLookupDataConfig
        defaultLoggingConfig) ∧
    (AppConfig.mk "my_service_name"
        (DBConfig.mk "DBNAME" "SCHEMA" ⟨"DB_USERNAME"⟩ ⟨"DB_PASS"⟩ "127.0.0.1" 9999
          defaultDBPerfConfig)
        (AWSConfig.mk (some "prod") none none "us-east-1") defaultLookupDataConfig
        defaultLoggingConfig).DB.PORT = 9999 := by
  have hu : unflattenFlat [("DB__PORT", "9999")] = .vdict [("DB", .vdict [("PORT", .vstr "9999")])] :=
    rfl
  have hm : mergeSources
      (settings_customise_sources (.vdict [])
        (.vdict [("AWS_CONFIG", .vdict [("AWS_PROFILE", .vstr "prod")])])
        (unflattenFlat [("DB__PORT", "9999")]) (.vdict [])) =
      .vdict [("AWS_CONFIG", .vdict [("AWS_PROFILE", .vstr "prod")]),
        ("DB", .vdict [("PORT", .vstr "9999")])] := by
    rw [hu]
    simp [mergeSources, settings_customise_sources, overlay, overlayDicts, eraseKey, lookupKey]
  have hvalid : validateAppConfig
      (mergeSources
        (settings_customise_sources (.vdict [])
          (.vdict [("AWS_CONFIG", .vdict [("AWS_PROFILE", .vstr "prod")])])
          (unflattenFlat [("DB__PORT", "9999")]) (.vdict []))) =
      .ok (AppConfig.mk "my_service_name"
        (DBConfig.mk "DBNAME" "SCHEMA" ⟨"DB_USERNAME"⟩ ⟨"DB_PASS"⟩ "127.0.0.1" 9999
          defaultDBPerfConfig)
        (AWSConfig.mk (some "prod") none none "us-east-1") defaultLookupDataConfig
        defaultLoggingConfig) := by
    rw [hm]
    rfl
  exact ⟨rfl, rfl, hvalid,
    spec_c7 (.vdict []) (.vdict [("AWS_CONFIG", .vdict [("AWS_PROFILE", .vstr "prod")])])
      (.vdict []) _ rfl rfl hvalid⟩

theorem errListOf_error {α : Type} (es : List VErr) :
    errListOf (Except.error es : Except (List VErr) α) = es := rfl

theorem errListOf_collect2_eq {α β : Type} (ra : Except (List VErr) α)
    (rb : Except (List VErr) β) :
    errListOf (collect2 ra rb) = errListOf ra ++ errListOf rb := by
  cases ra <;> cases rb <;> simp [collect2, errListOf]

theorem error_of_errListOf_ne {α : Type} (r : Except (List VErr) α)
    (h : errListOf r ≠ []) : r = .error (errListOf r) := by
  cases r with
  | ok a => simp [errListOf] at h
  | error e => rfl

theorem coerceOptStr_unset (f : String) (o : Option CVal) (h : isUnsetVal o = true) :
    coerceOptStr f o = .ok none := by
  cases o with
  | none => rfl
  | some v => cases v <;> simp_all [isUnsetVal, coerceOptStr]

theorem coerceOptSecret_ok (f : String) (o : Option CVal) (h : strOrUnset o = true) :
    ∃ r, coerceOptSecret f o = .ok r ∧ (isUnsetVal o = true → r = none) := by
  cases o with
  | none => exact ⟨none, rfl, fun _ => rfl⟩
  | some v =>
    cases v with
    | vnull => exact ⟨none, rfl, fun _ => rfl⟩
    | vstr s => exact ⟨some ⟨s⟩, rfl, by simp [isUnsetVal]⟩
    | vint n => simp [strOrUnset] at h
    | vbool b => simp [strOrUnset] at h
    | vlist xs => simp [strOrUnset] at h
    | vdict es => simp [strOrUnset] at h

theorem coerceStr_ok_of (f : String) (o : Option CVal) (d : String)
    (h : strOrAbsent o = true) : ∃ s, coerceStr f o d = .ok s := by
  cases o with
  | none => exact ⟨d, rfl⟩
  | some v =>
    cases v with
    | vstr s => exact ⟨s, rfl⟩
    | vnull => simp [strOrAbsent] at h
    | vint n => simp [strOrAbsent] at h
    | vbool b => simp [strOrAbsent] at h
    | vlist xs => simp [strOrAbsent] at h
    | vdict es => simp [strOrAbsent] at h

theorem validateAWSConfig_authMissing (v : Option CVal) (h : awsAuthMissing v = true) :
    validateAWSConfig v = .error [⟨[], awsAuthMsg⟩] := by
  cases v with
  | none => rfl
  | some t =>
    cases t with
    | vstr a => simp [awsAuthMissing] at h
    | vint a => simp [awsAuthMissing] at h
    | vbool a => simp [awsAuthMissing] at h
    | vnull => simp [awsAuthMissing] at h
    | vlist a => simp [awsAuthMissing] at h
    | vdict aes =>
      simp only [awsAuthMissing, Bool.and_eq_true] at h
      obtain ⟨⟨⟨⟨hprof, hkeys⟩, hk1⟩, hk2⟩, hreg⟩ := h
      have hP := coerceOptStr_unset "AWS_PROFILE" _ hprof
      obtain ⟨rk, hrk, hrknone⟩ := coerceOptSecret_ok "AWS_ACCESS_KEY_ID" _ hk1
      obtain ⟨rs, hrs, hrsnone⟩ := coerceOptSecret_ok "AWS_SECRET_ACCESS_KEY" _ hk2
      obtain ⟨rr, hrr⟩ := coerceStr_ok_of "AWS_DEFAULT_REGION" _ "us-east-1" hreg
      have hkeys' : isUnsetVal (lookupAlias aes "AWS__AWS_ACCESS_KEY_ID" "AWS_ACCESS_KEY_ID") =
          true ∨
          isUnsetVal (lookupAlias aes "AWS__AWS_SECRET_ACCESS_KEY" "AWS_SECRET_ACCESS_KEY") =
          true := by
        simpa using hkeys
      have hkeyF : (rk.isSome && rs.isSome) = false := by
        rcases hkeys' with hu | hu
        · rw [hrknone hu]; rfl
        · rw [hrsnone hu]; simp
      simp only [validateAWSConfig, hP, hrk, hrs, hrr, collect2]
      simp [hkeyF]

/-- C6: whenever the merged tree's AWS section supplies neither
`AWS_PROFILE` nor both access-key fields (its fields otherwise
well-typed), validation of the whole configuration fails; the error list
contains the cross-field invariant violation located at the
`AWS_CONFIG` section, and every violation of the other sections is
aggregated into the same list. -/
theorem spec_c6 (es : List (String × CVal))
    (haws : awsAuthMissing (lookupKey es "AWS_CONFIG") = true) :
    ∃ errs, validateAppConfig (.vdict es) = .error errs ∧
      (VErr.mk ["AWS_CONFIG"] awsAuthMsg) ∈ errs ∧
      ∀ e ∈ otherSectionErrs es, e ∈ errs := by
  have hA : validateAWSConfig (lookupKey es "AWS_CONFIG") = .error [⟨[], awsAuthMsg⟩] :=
    validateAWSConfig_authMissing _ haws
  have hPA : prefixErrs "AWS_CONFIG" (validateAWSConfig (lookupKey es "AWS_CONFIG")) =
      .error [⟨["AWS_CONFIG"], awsAuthMsg⟩] := by
    rw [hA]
    rfl
  have hErr : errListOf (collect2 (collect2 (collect2 (collect2
      (coerceStr "SERVICE_NAME" (lookupKey es "SERVICE_NAME") "my_service_name")
      (prefixErrs "DB" (validateDBConfig (lookupKey es "DB"))))
      (prefixErrs "AWS_CONFIG" (validateAWSConfig (lookupKey es "AWS_CONFIG"))))
      (prefixErrs "LOOKUP_DATA" (validateLookupDataConfig (lookupKey es "LOOKUP_DATA"))))
      (prefixErrs "LOGGING" (validateLoggingConfig (lookupKey es "LOGGING")))) =
      (((errListOf (coerceStr "SERVICE_NAME" (lookupKey es "SERVICE_NAME") "my_service_name") ++
        errListOf (prefixErrs "DB" (validateDBConfig (lookupKey es "DB")))) ++
        [⟨["AWS_CONFIG"], awsAuthMsg⟩]) ++
        errListOf (prefixErrs "LOOKUP_DATA" (validateLookupDataConfig
          (lookupKey es "LOOKUP_DATA")))) ++
        errListOf (prefixErrs "LOGGING" (validateLoggingConfig (lookupKey es "LOGGING"))) := by
    rw [errListOf_collect2_eq, errListOf_collect2_eq, errListOf_collect2_eq,
      errListOf_collect2_eq, hPA]
    rfl
  have hNe : errListOf (collect2 (collect2 (collect2 (collect2
      (coerceStr "SERVICE_NAME" (lookupKey es "SERVICE_NAME") "my_service_name")
      (prefixErrs "DB" (validateDBConfig (lookupKey es "DB"))))
      (prefixErrs "AWS_CONFIG" (validateAWSConfig (lookupKey es "AWS_CONFIG"))))
      (prefixErrs "LOOKUP_DATA" (validateLookupDataConfig (lookupKey es "LOOKUP_DATA"))))
      (prefixErrs "LOGGING" (validateLoggingConfig (lookupKey es "LOGGING")))) ≠ [] := by
    rw [hErr]
    simp
  have hRerr := error_of_errListOf_ne _ hNe
  rw [hErr] at hRerr
  simp only [validateAppConfig]
  rw [hRerr]
  cases hexl : extraKeyErrs es with
  | nil =>
    refine ⟨_, rfl, ?_, ?_⟩
    · rw [errListOf_error]
      simp
    · intro e he
      simp only [otherSectionErrs, List.mem_append] at he
      rw [hexl] at he
      rw [errListOf_error]
      simp only [List.mem_append, List.not_mem_nil, or_false] at he ⊢
      tauto
  | cons a l =>
    refine ⟨_, rfl, ?_, ?_⟩
    · rw [errListOf_error]
      simp
    · intro e he
      simp only [otherSectionErrs, List.mem_append] at he
      rw [hexl] at he
      rw [errListOf_error]
      simp only [List.mem_append] at he ⊢
      tauto

/-- C6 witness: a merged tree with no AWS section at all and an invalid
`DB.PORT` fails validation with the AWS invariant error at the
`AWS_CONFIG` location, aggregated with the `DB.PORT` coercion error. -/
theorem spec_c6_witness :
    awsAuthMissing
        (lookupKey [("DB", CVal.vdict [("PORT", CVal.vstr "notanint")])] "AWS_CONFIG") = true ∧
    (VErr.mk ["DB", "PORT"] "Input should be a valid integer") ∈
      otherSectionErrs [("DB", CVal.vdict [("PORT", CVal.vstr "notanint")])] ∧
    ∃ errs,
      validateAppConfig (.vdict [("DB", CVal.vdict [("PORT", CVal.vstr "notanint")])]) =
        .error errs ∧
      (VErr.mk ["AWS_CONFIG"] awsAuthMsg) ∈ errs ∧
      ∀ e ∈ otherSectionErrs [("DB", CVal.vdict [("PORT", CVal.vstr "notanint")])], e ∈ errs :=
  ⟨rfl, by decide, spec_c6 _ rfl⟩

/-- C2: the redaction wrapper's default string conversion is the fixed
ten-asterisk mask independent of the stored value, the real value is
returned only by the explicit accessor, and in the default structured
dump every secret field of the schema — including those nested inside
the `DB` and `AWS_CONFIG` sub-objects — serializes to the mask (or null
when the optional secret is unset), so the dump is unchanged by changing
any secret's real value. -/
theorem spec_c2 :
    (∀ s : String, SecretStr.display ⟨s⟩ = secretMask ∧ SecretStr.get_secret_value ⟨s⟩ = s) ∧
    (∀ c : AppConfig,
      lookupPath (dumpAppConfigJson c) ["DB", "USERNAME"] = some (.vstr secretMask) ∧
      lookupPath (dumpAppConfigJson c) ["DB", "PASSWORD"] = some (.vstr secretMask) ∧
      lookupPath (dumpAppConfigJson c) ["AWS_CONFIG", "AWS_ACCESS_KEY_ID"] =
        some (match c.AWS_CONFIG.AWS_ACCESS_KEY_ID with
          | none => CVal.vnull
          | some _ => CVal.vstr secretMask) ∧
      lookupPath (dumpAppConfigJson c) ["AWS_CONFIG", "AWS_SECRET_ACCESS_KEY"] =
        some (match c.AWS_CONFIG.AWS_SECRET_ACCESS_KEY with
          | none => CVal.vnull
          | some _ => CVal.vstr secretMask)) ∧
    (∀ (c : AppConfig) (a b : SecretStr),
      dumpAppConfigJson { c with DB := { c.DB with USERNAME := a } } =
        dumpAppConfigJson { c with DB := { c.DB with USERNAME := b } } ∧
      dumpAppConfigJson { c with DB := { c.DB with PASSWORD := a } } =
        dumpAppConfigJson { c with DB := { c.DB with PASSWORD := b } } ∧
      dumpAppConfigJson { c with AWS_CONFIG := { c.AWS_CONFIG with AWS_ACCESS_KEY_ID := some a } } =
        dumpAppConfigJson
          { c with AWS_CONFIG := { c.AWS_CONFIG with AWS_ACCESS_KEY_ID := some b } } ∧
      dumpAppConfigJson
          { c with AWS_CONFIG := { c.AWS_CONFIG with AWS_SECRET_ACCESS_KEY := some a } } =
        dumpAppConfigJson
          { c with AWS_CONFIG := { c.AWS_CONFIG with AWS_SECRET_ACCESS_KEY := some b } }) := by
  refine ⟨fun s => ⟨rfl, rfl⟩, fun c => ⟨?_, ?_, ?_, ?_⟩, fun c a b => ⟨rfl, rfl, rfl, rfl⟩⟩
  · simp [dumpAppConfigJson, dumpAppConfigEntries, lookupPath, lookupKey, serializeSecret,
      SecretStr.display]
  · simp [dumpAppConfigJson, dumpAppConfigEntries, lookupPath, lookupKey, serializeSecret,
      SecretStr.display]
  · cases h : c.AWS_CONFIG.AWS_ACCESS_KEY_ID <;>
      simp [dumpAppConfigJson, dumpAppConfigEntries, lookupPath, lookupKey, serializeOptSecret,
        SecretStr.display, h]
  · cases h : c.AWS_CONFIG.AWS_SECRET_ACCESS_KEY <;>
      simp [dumpAppConfigJson, dumpAppConfigEntries, lookupPath, lookupKey, serializeOptSecret,
        SecretStr.display, h]

theorem lookup_ite_append {β : Type} (c : Prop) [Decidable c] (l1 l2 r : List (String × β))
    (a : String) :
    ((if c then l1 else l2) ++ r).lookup a =
      if c then (l1 ++ r).lookup a else (l2 ++ r).lookup a := by
  split <;> rfl

/-- C8: neither export path writes a real secret value — the YAML dump
carries the fixed mask (or null for an unset optional secret) at every
secret field of the schema, the dotenv dump omits every masked secret
entirely (an unset optional secret appears only as the `None`
placeholder), and a list-valued entry serializes to a comma-joined
string in the dotenv flattening only, the YAML dump being the unchanged
nested tree. -/
theorem spec_c8 :
    (∀ c : AppConfig,
      lookupPath (dump_config_to_yaml c) ["DB", "USERNAME"] = some (.vstr secretMask) ∧
      lookupPath (dump_config_to_yaml c) ["DB", "PASSWORD"] = some (.vstr secretMask) ∧
      lookupPath (dump_config_to_yaml c) ["AWS_CONFIG", "AWS_ACCESS_KEY_ID"] =
        some (match c.AWS_CONFIG.AWS_ACCESS_KEY_ID with
          | none => CVal.vnull
          | some _ => CVal.vstr secretMask) ∧
      lookupPath (dump_config_to_yaml c) ["AWS_CONFIG", "AWS_SECRET_ACCESS_KEY"] =
        some (match c.AWS_CONFIG.AWS_SECRET_ACCESS_KEY with
          | none => CVal.vnull
          | some _ => CVal.vstr secretMask) ∧
      (dump_config_to_dotenv c).lookup "DB__USERNAME" = none ∧
      (dump_config_to_dotenv c).lookup "DB__PASSWORD" = none ∧
      (dump_config_to_dotenv c).lookup "AWS_CONFIG__AWS_ACCESS_KEY_ID" =
        (match c.AWS_CONFIG.AWS_ACCESS_KEY_ID with
          | none => some "None"
          | some _ => none) ∧
      (dump_config_to_dotenv c).lookup "AWS_CONFIG__AWS_SECRET_ACCESS_KEY" =
        (match c.AWS_CONFIG.AWS_SECRET_ACCESS_KEY with
          | none => some "None"
          | some _ => none)) ∧
    (∀ (k : String) (xs : List CVal) (pk sep nv : String) (sk : Bool),
      flatten_config_dict [(k, .vlist xs)] pk sep nv sk =
        [((if pk ≠ "" then pk ++ sep ++ k else k),
          String.intercalate "," (xs.map pyStr))]) ∧
    (∀ c : AppConfig, dump_config_to_yaml c = .vdict (dumpAppConfigEntries c)) := by
  have hmask : py_startswith secretMask "********" = true := rfl
  refine ⟨?_, ?_, fun c => rfl⟩
  · intro c
    obtain ⟨sn, db, aws, lu, lg⟩ := c
    obtain ⟨dbn, sch, us, pw, host, port, perf⟩ := db
    obtain ⟨ps, wc⟩ := perf
    obtain ⟨prof, k1, k2, reg⟩ := aws
    obtain ⟨df⟩ := lu
    obtain ⟨lvl, fmt, datef⟩ := lg
    cases prof <;> cases k1 <;> cases k2 <;>
      simp [dump_config_to_yaml, dumpAppConfigJson, dumpAppConfigEntries, dump_config_to_dotenv,
        dumpDotenvItems, flatten_config_dict, flattenValue, serializeSecret, serializeOptStr,
        serializeOptSecret, SecretStr.display, lookupPath, lookupKey, List.lookup,
        lookup_ite_append, hmask]
  · intro k xs pk sep nv sk
    simp [flatten_config_dict, flattenValue]
